import Mathlib

/-!
Verification of the multi-source job ingestion and deduplication pipeline
implemented in `job_scraper.py` (class `JobScraperBot`).

The embedding keeps the source's names where Lean allows it.  Python strings
are modelled as Lean `String` (operated on through their `List Char` data);
Python ints as `Int`/`Nat`; the SQLite table `seen_jobs` as a list of rows in
insertion order; network fetches as explicit `FetchResult` inputs; the
Telegram sink as an event in an observable trace, with an explicit `deliver`
oracle standing for the success or failure of the outbound POST (the source's
`send_telegram` swallows its own exceptions, so delivery outcome never flows
back into the pipeline).
-/

/-! ## Python string primitives used by the source -/

/-- Python `str.lower()` restricted to the per-character case mapping. -/
def pyLower (s : String) : String := ⟨s.data.map Char.toLower⟩

/-- Characters stripped by Python `str.strip()` / matched by regex `\s`. -/
def isPySpace (c : Char) : Bool :=
  c == ' ' || c == '\t' || c == '\n' || c == '\r' ||
  c == Char.ofNat 11 || c == Char.ofNat 12

/-- Python `str.strip()`: drop leading and trailing whitespace. -/
def pyStrip (s : String) : String :=
  ⟨((s.data.dropWhile isPySpace).reverse.dropWhile isPySpace).reverse⟩

/-- Python substring test `needle in hay` on character lists: some contiguous
slice of `hay` equals `needle` (the empty needle always matches). -/
def containsSub : List Char → List Char → Bool
  | [], needle => needle.isEmpty
  | c :: t, needle => needle.isPrefixOf (c :: t) || containsSub t needle

/-- Python `needle in hay` on strings. -/
def pyInStr (needle hay : String) : Bool := containsSub hay.data needle.data

/-- Value of a run of decimal digits, as Python `int()` of the matched group. -/
def digitsToNat (ds : List Char) : Nat :=
  ds.foldl (fun n c => n * 10 + (c.toNat - 48)) 0

/-- One attempt of the pattern `(\d+)\s*<word>` anchored at the head of `s`:
a nonempty greedy digit run, optional whitespace, then the literal word. -/
def matchNumAt (word : List Char) (s : List Char) : Option Nat :=
  let ds := s.takeWhile Char.isDigit
  if ds.isEmpty then none
  else if word.isPrefixOf ((s.dropWhile Char.isDigit).dropWhile isPySpace) then
    some (digitsToNat ds)
  else none

/-- Python `re.search(r'(\d+)\s*<word>', s)` returning `int(group(1))`:
leftmost position where the pattern matches (greedy `\d+` is the only
candidate run, since a digit cannot also start `\s*<word>`). -/
def searchNumWord (word : List Char) : List Char → Option Nat
  | [] => none
  | c :: t =>
    match matchNumAt word (c :: t) with
    | some n => some n
    | none => searchNumWord word t

/-! ## MD5 (RFC 1321) over `Nat`, for `hashlib.md5(...).hexdigest()` -/

def w32 : Nat := 4294967296

def mask32 : Nat := 4294967295

/-- 32-bit left rotation of a word already reduced below `2 ^ 32`. -/
def rotl32 (x n : Nat) : Nat := ((x <<< n) ||| (x >>> (32 - n))) % w32

/-- Little-endian 4-byte serialisation of a 32-bit word. -/
def wordLE (x : Nat) : List Nat :=
  [x % 256, x / 256 % 256, x / 65536 % 256, x / 16777216 % 256]

/-- Little-endian 8-byte serialisation of the 64-bit message bit length. -/
def le8 (n : Nat) : List Nat :=
  [n % 256, n / 256 % 256, n / 65536 % 256, n / 16777216 % 256,
   n / 4294967296 % 256, n / 1099511627776 % 256,
   n / 281474976710656 % 256, n / 72057594037927936 % 256]

/-- MD5 padding: `0x80`, zeros to 56 mod 64, then the bit length. -/
def md5Pad (msg : List Nat) : List Nat :=
  let r := (msg.length + 1) % 64
  msg ++ 128 :: List.replicate ((56 + 64 - r) % 64) 0 ++ le8 (msg.length * 8)

/-- Group bytes into little-endian 32-bit words. -/
def leWords : List Nat → List Nat
  | b0 :: b1 :: b2 :: b3 :: rest =>
      (b0 + b1 * 256 + b2 * 65536 + b3 * 16777216) :: leWords rest
  | _ => []

/-- Group words into 16-word blocks. -/
def chunk16 : List Nat → List (List Nat)
  | a::b::c::d::e::f::g::h::i::j::k::l::m::n::o::p :: rest =>
      [a,b,c,d,e,f,g,h,i,j,k,l,m,n,o,p] :: chunk16 rest
  | _ => []

/-- MD5 round constants `K[i] = floor(2^32 * abs(sin(i+1)))`. -/
def md5K : List Nat :=
  [0xd76aa478, 0xe8c7b756, 0x242070db, 0xc1bdceee,
   0xf57c0faf, 0x4787c62a, 0xa8304613, 0xfd469501,
   0x698098d8, 0x8b44f7af, 0xffff5bb1, 0x895cd7be,
   0x6b901122, 0xfd987193, 0xa679438e, 0x49b40821,
   0xf61e2562, 0xc040b340, 0x265e5a51, 0xe9b6c7aa,
   0xd62f105d, 0x02441453, 0xd8a1e681, 0xe7d3fbc8,
   0x21e1cde6, 0xc33707d6, 0xf4d50d87, 0x455a14ed,
   0xa9e3e905, 0xfcefa3f8, 0x676f02d9, 0x8d2a4c8a,
   0xfffa3942, 0x8771f681, 0x6d9d6122, 0xfde5380c,
   0xa4beea44, 0x4bdecfa9, 0xf6bb4b60, 0xbebfbc70,
   0x289b7ec6, 0xeaa127fa, 0xd4ef3085, 0x04881d05,
   0xd9d4d039, 0xe6db99e5, 0x1fa27cf8, 0xc4ac5665,
   0xf4292244, 0x432aff97, 0xab9423a7, 0xfc93a039,
   0x655b59c3, 0x8f0ccc92, 0xffeff47d, 0x85845dd1,
   0x6fa87e4f, 0xfe2ce6e0, 0xa3014314, 0x4e0811a1,
   0xf7537e82, 0xbd3af235, 0x2ad7d2bb, 0xeb86d391]

/-- MD5 per-round left-rotation amounts. -/
def md5S : List Nat :=
  [7,12,17,22,7,12,17,22,7,12,17,22,7,12,17,22,
   5,9,14,20,5,9,14,20,5,9,14,20,5,9,14,20,
   4,11,16,23,4,11,16,23,4,11,16,23,4,11,16,23,
   6,10,15,21,6,10,15,21,6,10,15,21,6,10,15,21]

/-- MD5 nonlinear round function. -/
def md5F (i B C D : Nat) : Nat :=
  if i < 16 then (B &&& C) ||| ((mask32 ^^^ B) &&& D)
  else if i < 32 then (D &&& B) ||| ((mask32 ^^^ D) &&& C)
  else if i < 48 then B ^^^ C ^^^ D
  else C ^^^ (B ||| (mask32 ^^^ D))

/-- MD5 message-word index schedule. -/
def md5G (i : Nat) : Nat :=
  if i < 16 then i
  else if i < 32 then (5 * i + 1) % 16
  else if i < 48 then (3 * i + 5) % 16
  else (7 * i) % 16

/-- One of the 64 MD5 rounds on the `(A, B, C, D)` state. -/
def md5Step (M : List Nat) (st : Nat × Nat × Nat × Nat) (i : Nat) :
    Nat × Nat × Nat × Nat :=
  let (A, B, C, D) := st
  let F := (md5F i B C D + A + md5K.getD i 0 + M.getD (md5G i) 0) % w32
  (D, (B + rotl32 F (md5S.getD i 0)) % w32, B, C)

/-- MD5 compression of one 16-word block. -/
def md5Chunk (st : Nat × Nat × Nat × Nat) (M : List Nat) :
    Nat × Nat × Nat × Nat :=
  let (A, B, C, D) := (List.range 64).foldl (md5Step M) st
  ((st.1 + A) % w32, (st.2.1 + B) % w32, (st.2.2.1 + C) % w32, (st.2.2.2 + D) % w32)

/-- MD5 digest of a byte sequence, as 16 bytes. -/
def md5Digest (msg : List Nat) : List Nat :=
  let fin := (chunk16 (leWords (md5Pad msg))).foldl md5Chunk
    (0x67452301, 0xefcdab89, 0x98badcfe, 0x10325476)
  wordLE fin.1 ++ wordLE fin.2.1 ++ wordLE fin.2.2.1 ++ wordLE fin.2.2.2

/-- Lowercase hex digit. -/
def hexDigit (n : Nat) : Char :=
  if n < 10 then Char.ofNat (48 + n) else Char.ofNat (87 + n)

/-- Two lowercase hex digits of a byte. -/
def hexByte (b : Nat) : List Char := [hexDigit (b / 16), hexDigit (b % 16)]

/-- Python `hashlib.md5(bytes).hexdigest()`. -/
def md5Hex (msg : List Nat) : String := ⟨((md5Digest msg).map hexByte).flatten⟩

/-- UTF-8 encoding of one code point. -/
def utf8Char (c : Char) : List Nat :=
  let n := c.toNat
  if n < 128 then [n]
  else if n < 2048 then [192 + n / 64, 128 + n % 64]
  else if n < 65536 then [224 + n / 4096, 128 + n / 64 % 64, 128 + n % 64]
  else [240 + n / 262144, 128 + n / 4096 % 64, 128 + n / 64 % 64, 128 + n % 64]

/-- Python `str.encode()` (UTF-8). -/
def utf8Bytes (s : String) : List Nat := (s.data.map utf8Char).flatten

/-! ## Data model -/

/-- Configuration state built by `JobScraperBot.__init__` (lines 21-38):
environment-derived fields that the pipeline reads.  `telegram_bot_token`
and `telegram_chat_id` are `os.getenv` results (`none` models Python
`None`). -/
structure BotConfig where
  telegram_bot_token : Option String
  telegram_chat_id : Option String
  skills : List String
  check_interval : Int
  max_days_old : Int
  dash_user : String
  dash_pass : String

/-- Default of the `JOB_SKILLS` environment variable (line 24-27). -/
def defaultSkillsEnv : String :=
  "java,spring,spring boot,microservices,hibernate,jpa,rest api,sql,mysql,postgres,docker,kubernetes"

/-- Python `str.split(sep)` for a one-character separator: split at every
occurrence, keeping empty segments (`"a,".split(',') == ["a", ""]`). -/
def pySplitChar (sep : Char) : List Char → List Char → List String
  | [], acc => [⟨acc.reverse⟩]
  | c :: t, acc =>
    if c == sep then (⟨acc.reverse⟩ : String) :: pySplitChar sep t []
    else pySplitChar sep t (c :: acc)

/-- `os.getenv('JOB_SKILLS', default).lower().split(',')` (lines 24-27). -/
def skillsFromEnv (env : Option String) : List String :=
  pySplitChar ',' (pyLower (env.getD defaultSkillsEnv)).data []

/-- Python truthiness of an `os.getenv` result: not `None` and not empty. -/
def optTruthy : Option String → Bool
  | none => false
  | some s => !(s == "")

/-- The guard `if self.telegram_bot_token and self.telegram_chat_id` at
line 767. -/
def credsOk (self : BotConfig) : Bool :=
  optTruthy self.telegram_bot_token && optTruthy self.telegram_chat_id

/-- One job record dict as built by the scrapers (keys `title`, `company`,
`link`, `portal`, `posted_date`, `days_ago`). -/
structure JobRec where
  title : String
  company : String
  link : String
  portal : String
  posted_date : String
  days_ago : Int
deriving DecidableEq

/-- One row of the `seen_jobs` SQLite table (lines 43-54), omitting the
server-assigned `notified_at` timestamp. -/
structure SeenEntry where
  job_id : String
  title : String
  company : String
  url : String
  portal : String
  posted_date : String
  days_ago : Int
deriving DecidableEq

/-- Outcome of one `requests.get`/parse against an external site: either an
exception anywhere inside the adapter's `try` block, or a response with an
HTTP status code and a parsed body. -/
inductive FetchResult (α : Type) where
  | exception
  | response (status : Nat) (body : α)

/-- Outcome of invoking one scraper from `scrape_all_portals` (lines
748-756): the returned record list, or an adapter-level exception caught by
the orchestrator's own `try`. -/
inductive AdapterOutcome where
  | ok (jobs : List JobRec)
  | raised

/-- Observable pipeline actions of one `process_jobs` run, in program order:
a hand-off of a record to the Telegram sink (with the delivery success bit)
or an insertion of an identity into the store. -/
inductive Event where
  | notify (job : JobRec) (delivered : Bool)
  | insert (job_id : String)
deriving DecidableEq

/-- Running state of the `process_jobs` loop: the store, the emitted event
trace, and the `new_count` tally. -/
structure PState where
  store : List SeenEntry
  events : List Event
  new_count : Nat

/-! ## Job helpers (source lines 58-99) -/

/-- `generate_job_id` (lines 58-59):
`hashlib.md5(f"{title}{company}{url}".encode()).hexdigest()`.  The method
reads nothing from `self`. -/
def generate_job_id (self : BotConfig) (title company url : String) : String :=
  md5Hex (utf8Bytes (title ++ company ++ url))

/-- `is_job_seen` (lines 61-63): `SELECT job_id FROM seen_jobs WHERE
job_id=?` has a row. -/
def is_job_seen (store : List SeenEntry) (job_id : String) : Bool :=
  store.any (fun e => e.job_id == job_id)

/-- `mark_job_seen` (lines 65-73): `INSERT INTO seen_jobs ...`; a duplicate
primary key raises `sqlite3.IntegrityError`, which is caught and ignored, so
the call is total and a no-op on conflict. -/
def mark_job_seen (store : List SeenEntry)
    (job_id title company url portal posted_date : String) (days_ago : Int) :
    List SeenEntry :=
  if store.any (fun e => e.job_id == job_id) then store
  else store ++ [⟨job_id, title, company, url, portal, posted_date, days_ago⟩]

/-- `matches_skills` (lines 75-77): `any(skill.strip() in job_text_lower for
skill in self.skills)` where `job_text_lower = job_text.lower()`.  Note the
skill entry is stripped but not lowercased here. -/
def matches_skills (self : BotConfig) (job_text : String) : Bool :=
  let job_text_lower := pyLower job_text
  self.skills.any (fun skill => pyInStr (pyStrip skill) job_text_lower)

/-- `parse_days_ago` (lines 79-96).  The method reads nothing from `self`. -/
def parse_days_ago (self : BotConfig) (date_str : String) : Nat :=
  if date_str == "" then 999
  else
    let date_lower := (pyLower date_str).data
    if ["today", "just now", "minutes ago", "hours ago", "hour ago"].any
        (fun w => containsSub date_lower w.data) then 0
    else if containsSub date_lower "yesterday".data then 1
    else
      match searchNumWord "day".data date_lower with
      | some n => n
      | none =>
        match searchNumWord "week".data date_lower with
        | some n => n * 7
        | none =>
          match searchNumWord "month".data date_lower with
          | some n => n * 30
          | none => 999

/-- `is_recent_job` (lines 98-99): `days_ago <= self.max_days_old`. -/
def is_recent_job (self : BotConfig) (days_ago : Int) : Bool :=
  days_ago ≤ self.max_days_old

/-- Identity of a scraped record as computed at line 765. -/
def jobId (self : BotConfig) (j : JobRec) : String :=
  generate_job_id self j.title j.company j.link

/-! ## Source adapters (representatives: Remotive and Glassdoor) -/

/-- One element of `data.get('jobs', [])` in `scrape_remotive` (lines
110-129): the JSON dict fields the adapter reads (`none` models a missing
key), together with `parsed_date`, the environment-supplied outcome of
`datetime.strptime(pub_date, ...)`/`datetime.now()` at lines 113-115 —
`some d` is the computed `.days` difference, `none` means `strptime`
raised and line 117 sets the 999 sentinel. -/
structure RemotiveItem where
  title : Option String
  company_name : Option String
  url : Option String
  description : Option String
  tags : Option (List String)
  publication_date : Option String
  parsed_date : Option Int

/-- The `days_ago` value lines 113-117 compute for one Remotive item. -/
def remotiveDays (item : RemotiveItem) : Int :=
  match item.parsed_date with
  | some d => d
  | none => 999

/-- Per-item body of the `scrape_remotive` loop (lines 111-129): recency
filter, then skill filter, then the emitted record. -/
def remotiveItemToJob (self : BotConfig) (item : RemotiveItem) : Option JobRec :=
  let pub_date := item.publication_date.getD ""
  let days_ago := remotiveDays item
  if !(is_recent_job self days_ago) then none
  else
    let job_text := (item.title.getD "") ++ " " ++ (item.description.getD "") ++
      " " ++ String.intercalate " " (item.tags.getD [])
    if matches_skills self job_text then
      some { title := item.title.getD "N/A", company := item.company_name.getD "N/A",
             link := item.url.getD "", portal := "Remotive",
             posted_date := pub_date, days_ago := days_ago }
    else none

/-- `scrape_remotive` (lines 102-133): any exception or a non-200 status
yields `[]`; on 200 the body (the parsed `jobs` array) is mapped through the
per-item loop. -/
def scrape_remotive (self : BotConfig) (fetch : FetchResult (List RemotiveItem)) :
    List JobRec :=
  match fetch with
  | .exception => []
  | .response status items =>
    if status == 200 then items.filterMap (remotiveItemToJob self) else []

/-- One parsed Glassdoor job card in `scrape_glassdoor` (lines 258-279):
`title`/`company` are the stripped element texts (`none` when the element is
absent), `href` the anchor's attribute. -/
structure GlassdoorCard where
  title : Option String
  company : Option String
  href : Option String

/-- Per-card body of the `scrape_glassdoor` loop (lines 259-279): no recency
check is performed; `days_ago` is the hardcoded approximation 3. -/
def glassdoorCardToJob (self : BotConfig) (card : GlassdoorCard) : Option JobRec :=
  match card.title with
  | none => none
  | some title =>
    let company := card.company.getD "N/A"
    let link := match card.href with
      | some h => if h == "" then "" else "https://www.glassdoor.com" ++ h
      | none => ""
    let days_ago : Int := 3
    let job_text := title ++ " " ++ company
    if matches_skills self job_text then
      some { title := title, company := company, link := link,
             portal := "Glassdoor", posted_date := "Recently",
             days_ago := days_ago }
    else none

/-- `scrape_glassdoor` (lines 248-285): any exception or a non-200 status
yields `[]`; on 200 the first 20 cards are mapped through the per-card
loop. -/
def scrape_glassdoor (self : BotConfig) (fetch : FetchResult (List GlassdoorCard)) :
    List JobRec :=
  match fetch with
  | .exception => []
  | .response status cards =>
    if status == 200 then (cards.take 20).filterMap (glassdoorCardToJob self) else []

/-! ## Aggregation orchestrator (lines 727-782) -/

/-- `scrape_all_portals` (lines 727-758): run the scrapers in order; a
scraper that raises is caught by the per-scraper `try` and contributes
nothing; results are accumulated with `all_jobs.extend(jobs)`. -/
def scrape_all_portals (outcomes : List AdapterOutcome) : List JobRec :=
  outcomes.foldl
    (fun all_jobs o =>
      match o with
      | .ok jobs => all_jobs ++ jobs
      | .raised => all_jobs)
    []

/-- Stable ascending insertion for `jobs.sort(key=lambda x: x['days_ago'])`. -/
def insertByDays (j : JobRec) : List JobRec → List JobRec
  | [] => [j]
  | x :: xs => if j.days_ago < x.days_ago then j :: x :: xs else x :: insertByDays j xs

/-- `jobs.sort(key=lambda x: x['days_ago'])` at line 762 (stable, ascending). -/
def sortByDays : List JobRec → List JobRec
  | [] => []
  | x :: xs => insertByDays x (sortByDays xs)

/-- The Telegram message formatted by `send_telegram` (line 775). -/
def send_telegram_msg (job : JobRec) : String :=
  "New Job: " ++ job.title ++ " at " ++ job.company ++ " [" ++ job.portal ++
    "] " ++ job.link

/-- Body of the `for job in jobs` loop of `process_jobs` (lines 764-770), in
source order: compute the identity; if unseen, hand the record to the
Telegram sink when credentials are truthy (`send_telegram` logs its own
failures and raises nothing, so the `deliver` outcome affects nothing else),
then `mark_job_seen`, then increment `new_count`. -/
def processOne (self : BotConfig) (deliver : JobRec → Bool) (st : PState)
    (job : JobRec) : PState :=
  let job_id := generate_job_id self job.title job.company job.link
  if is_job_seen st.store job_id then st
  else
    let ev1 := if credsOk self then st.events ++ [Event.notify job (deliver job)]
               else st.events
    { store := mark_job_seen st.store job_id job.title job.company job.link
        job.portal job.posted_date job.days_ago
      events := ev1 ++ [Event.insert job_id]
      new_count := st.new_count + 1 }

/-- The whole `for job in jobs` loop of `process_jobs`. -/
def processList (self : BotConfig) (deliver : JobRec → Bool) (st : PState)
    (jobs : List JobRec) : PState :=
  jobs.foldl (processOne self deliver) st

/-- `process_jobs` (lines 760-772): scrape all portals, sort by `days_ago`,
run the dedup/notify loop over a starting store, and return the examined
job list together with the final loop state. -/
def process_jobs (self : BotConfig) (deliver : JobRec → Bool)
    (store₀ : List SeenEntry) (outcomes : List AdapterOutcome) :
    List JobRec × PState :=
  let jobs := sortByDays (scrape_all_portals outcomes)
  (jobs, processList self deliver { store := store₀, events := [], new_count := 0 } jobs)

/-- Repeated cycles of `process_jobs` sharing the persistent store, with the
concatenated event trace (the scheduler loop / per-request driver). -/
def runCycles (self : BotConfig) (deliver : JobRec → Bool) :
    List SeenEntry → List (List AdapterOutcome) → List SeenEntry × List Event
  | store, [] => (store, [])
  | store, outs :: rest =>
    let st := (process_jobs self deliver store outs).2
    let r := runCycles self deliver st.store rest
    (r.1, st.events ++ r.2)

/-! ## Trace and store observations used by the claims -/

/-- Event is a sink hand-off of a record with the given identity. -/
def isNotifyFor (self : BotConfig) (id : String) : Event → Bool
  | .notify j _ => jobId self j == id
  | .insert _ => false

/-- Event is a store insertion of the given identity. -/
def isInsertFor (id : String) : Event → Bool
  | .insert i => i == id
  | .notify _ _ => false

/-- Number of sink hand-offs for records of the given identity in a trace. -/
def notifyCount (self : BotConfig) (id : String) (events : List Event) : Nat :=
  events.countP (isNotifyFor self id)

/-- Number of store insertions of the given identity in a trace. -/
def insertCount (id : String) (events : List Event) : Nat :=
  events.countP (isInsertFor id)

/-- Number of rows of the store carrying the given identity. -/
def entryCount (id : String) (store : List SeenEntry) : Nat :=
  store.countP (fun e => e.job_id == id)

/-- Kind of the first event of a trace that concerns the given identity:
`some true` for a sink hand-off, `some false` for a store insertion, `none`
when the identity never appears. -/
def firstIdEvent (self : BotConfig) (id : String) : List Event → Option Bool
  | [] => none
  | .notify j _ :: rest =>
    if jobId self j == id then some true else firstIdEvent self id rest
  | .insert i :: rest =>
    if i == id then some false else firstIdEvent self id rest

/-! ## Definitions transcribed from the specification's words -/

/-- Recency classification exactly as §4.3 of the specification words it:
absent input is 999; then, on the lowercased text, in order: the fixed
zero-day phrases give 0; "yesterday" gives 1; the first `<N> day` match
gives N; `<N> week` gives N*7; `<N> month` gives N*30; otherwise 999. -/
def parseDaysAgoSpec (date_str : String) : Nat :=
  if date_str == "" then 999
  else
    let date_lower := (pyLower date_str).data
    if ["today", "just now", "minutes ago", "hours ago", "hour ago"].any
        (fun w => containsSub date_lower w.data) then 0
    else if containsSub date_lower "yesterday".data then 1
    else
      match searchNumWord "day".data date_lower with
      | some n => n
      | none =>
        match searchNumWord "week".data date_lower with
        | some n => n * 7
        | none =>
          match searchNumWord "month".data date_lower with
          | some n => n * 30
          | none => 999

/-- Skill matching as claim C5 words it: true iff the lowercased text
contains at least one lowercased, trimmed entry of the skill list as a
substring. -/
def matchesSkillsSpecC5 (skills : List String) (text : String) : Bool :=
  skills.any (fun skill => pyInStr (pyLower (pyStrip skill)) (pyLower text))

/-! ## Helper lemmas: substring matching -/

theorem containsSub_correct (hay needle : List Char) :
    containsSub hay needle = true ↔ needle <:+: hay := by
  induction hay with
  | nil =>
    simp [containsSub, List.isEmpty_iff]
  | cons c t ih =>
    simp [containsSub, Bool.or_eq_true, List.isPrefixOf_iff_prefix, ih,
      List.infix_cons_iff]

theorem pyInStr_correct (needle hay : String) :
    pyInStr needle hay = true ↔ needle.data <:+: hay.data :=
  containsSub_correct hay.data needle.data

theorem containsSub_empty_needle (hay : List Char) : containsSub hay [] = true := by
  cases hay <;> simp [containsSub, List.isPrefixOf]

/-! ## Helper lemmas: the seen-job store -/

theorem is_job_seen_append (s : List SeenEntry) (e : SeenEntry) (id : String) :
    is_job_seen (s ++ [e]) id = (is_job_seen s id || (e.job_id == id)) := by
  simp [is_job_seen, List.any_append]

theorem mark_job_seen_of_seen (s : List SeenEntry)
    (id t c u p pd : String) (d : Int) (h : is_job_seen s id = true) :
    mark_job_seen s id t c u p pd d = s := by
  simp only [is_job_seen] at h
  unfold mark_job_seen
  rw [if_pos h]

theorem mark_job_seen_of_unseen (s : List SeenEntry)
    (id t c u p pd : String) (d : Int) (h : is_job_seen s id = false) :
    mark_job_seen s id t c u p pd d = s ++ [⟨id, t, c, u, p, pd, d⟩] := by
  simp only [is_job_seen] at h
  unfold mark_job_seen
  rw [if_neg (by simp [h])]

theorem is_job_seen_mark (s : List SeenEntry)
    (id' t c u p pd : String) (d : Int) (id : String) :
    is_job_seen (mark_job_seen s id' t c u p pd d) id =
      (is_job_seen s id || id' == id) := by
  by_cases h : is_job_seen s id' = true
  · rw [mark_job_seen_of_seen s id' t c u p pd d h]
    by_cases hid : id' = id
    · subst hid
      simp [h]
    · simp [hid]
  · rw [mark_job_seen_of_unseen s id' t c u p pd d (by simpa using h)]
    rw [is_job_seen_append]

theorem seen_iff_entryCount (s : List SeenEntry) (id : String) :
    is_job_seen s id = false ↔ entryCount id s = 0 := by
  simp [is_job_seen, entryCount, List.countP_eq_zero, ← Bool.not_eq_true,
    List.any_eq_true]

theorem entryCount_mark_of_ne (s : List SeenEntry)
    (id' t c u p pd : String) (d : Int) (id : String) (h : (id' == id) = false) :
    entryCount id (mark_job_seen s id' t c u p pd d) = entryCount id s := by
  by_cases hs : is_job_seen s id' = true
  · rw [mark_job_seen_of_seen s id' t c u p pd d hs]
  · rw [mark_job_seen_of_unseen s id' t c u p pd d (by simpa using hs)]
    simp [entryCount, List.countP_append, List.countP_cons, h]

/-! ## Helper lemmas: one step of the `process_jobs` loop -/

theorem processOne_store (self : BotConfig) (deliver : JobRec → Bool)
    (st : PState) (j : JobRec) :
    (processOne self deliver st j).store =
      mark_job_seen st.store (jobId self j) j.title j.company j.link j.portal
        j.posted_date j.days_ago := by
  simp only [processOne, jobId]
  by_cases h : is_job_seen st.store (generate_job_id self j.title j.company j.link) = true
  · rw [if_pos h, mark_job_seen_of_seen _ _ _ _ _ _ _ _ h]
  · rw [if_neg h]

theorem processOne_events (self : BotConfig) (deliver : JobRec → Bool)
    (st : PState) (j : JobRec) :
    (processOne self deliver st j).events =
      st.events ++
        (if is_job_seen st.store (jobId self j) = true then []
         else
           (if credsOk self = true then [Event.notify j (deliver j)] else []) ++
             [Event.insert (jobId self j)]) := by
  simp only [processOne, jobId]
  by_cases h : is_job_seen st.store (generate_job_id self j.title j.company j.link) = true
  · rw [if_pos h, if_pos h]
    simp
  · rw [if_neg h, if_neg h]
    by_cases hc : credsOk self = true
    · rw [if_pos hc, if_pos hc]
      simp
    · rw [if_neg hc, if_neg hc]
      simp

theorem seen_processOne (self : BotConfig) (deliver : JobRec → Bool)
    (st : PState) (j : JobRec) (id : String)
    (h : is_job_seen st.store id = true) :
    is_job_seen (processOne self deliver st j).store id = true := by
  rw [processOne_store, is_job_seen_mark, h]
  rfl

theorem unseen_processOne (self : BotConfig) (deliver : JobRec → Bool)
    (st : PState) (j : JobRec) (id : String)
    (h : is_job_seen st.store id = false) (hne : (jobId self j == id) = false) :
    is_job_seen (processOne self deliver st j).store id = false := by
  rw [processOne_store, is_job_seen_mark, h, hne]
  rfl

theorem notifyCount_processOne (self : BotConfig) (deliver : JobRec → Bool)
    (st : PState) (j : JobRec) (id : String) :
    notifyCount self id (processOne self deliver st j).events =
      notifyCount self id st.events +
        (if is_job_seen st.store (jobId self j) = true then 0
         else if ((jobId self j == id) && credsOk self) = true then 1 else 0) := by
  simp only [notifyCount]
  rw [processOne_events, List.countP_append]
  congr 1
  by_cases h : is_job_seen st.store (jobId self j) = true
  · simp [h]
  · by_cases hc : credsOk self = true <;>
      by_cases hid : (jobId self j == id) = true <;>
        simp [h, hc, hid, isNotifyFor, List.countP_cons]

theorem insertCount_processOne (self : BotConfig) (deliver : JobRec → Bool)
    (st : PState) (j : JobRec) (id : String) :
    insertCount id (processOne self deliver st j).events =
      insertCount id st.events +
        (if is_job_seen st.store (jobId self j) = true then 0
         else if (jobId self j == id) = true then 1 else 0) := by
  simp only [insertCount]
  rw [processOne_events, List.countP_append]
  congr 1
  by_cases h : is_job_seen st.store (jobId self j) = true
  · simp [h]
  · by_cases hc : credsOk self = true <;>
      by_cases hid : (jobId self j == id) = true <;>
        simp [h, hc, hid, isInsertFor, List.countP_cons]

theorem entryCount_processOne (self : BotConfig) (deliver : JobRec → Bool)
    (st : PState) (j : JobRec) (id : String) :
    entryCount id (processOne self deliver st j).store =
      entryCount id st.store +
        (if is_job_seen st.store (jobId self j) = true then 0
         else if (jobId self j == id) = true then 1 else 0) := by
  rw [processOne_store]
  by_cases h : is_job_seen st.store (jobId self j) = true
  · rw [mark_job_seen_of_seen _ _ _ _ _ _ _ _ h]
    simp [h]
  · rw [mark_job_seen_of_unseen _ _ _ _ _ _ _ _ (by simpa using h)]
    by_cases hid : (jobId self j == id) = true <;>
      simp [entryCount, List.countP_append, List.countP_cons, h, hid]

/-! ## Helper lemmas: the whole `process_jobs` loop -/

theorem processList_nil (self : BotConfig) (deliver : JobRec → Bool) (st : PState) :
    processList self deliver st [] = st := rfl

theorem processList_cons (self : BotConfig) (deliver : JobRec → Bool)
    (st : PState) (j : JobRec) (jobs : List JobRec) :
    processList self deliver st (j :: jobs) =
      processList self deliver (processOne self deliver st j) jobs := rfl

theorem seen_processList (self : BotConfig) (deliver : JobRec → Bool)
    (jobs : List JobRec) : ∀ st : PState, ∀ id : String,
    is_job_seen st.store id = true →
    is_job_seen (processList self deliver st jobs).store id = true := by
  induction jobs with
  | nil => intro st id h; exact h
  | cons j rest ih =>
    intro st id h
    rw [processList_cons]
    exact ih _ _ (seen_processOne self deliver st j id h)

theorem seen_processList_of_mem (self : BotConfig) (deliver : JobRec → Bool)
    (jobs : List JobRec) : ∀ st : PState, ∀ job : JobRec, job ∈ jobs →
    is_job_seen (processList self deliver st jobs).store (jobId self job) = true := by
  induction jobs with
  | nil => intro st job h; simp at h
  | cons j rest ih =>
    intro st job h
    rw [processList_cons]
    rcases List.mem_cons.mp h with rfl | hm
    · apply seen_processList
      rw [processOne_store, is_job_seen_mark]
      simp
    · exact ih _ _ hm

theorem counts_processList_of_seen (self : BotConfig) (deliver : JobRec → Bool)
    (jobs : List JobRec) : ∀ st : PState, ∀ id : String,
    is_job_seen st.store id = true →
    notifyCount self id (processList self deliver st jobs).events =
        notifyCount self id st.events ∧
      insertCount id (processList self deliver st jobs).events =
        insertCount id st.events ∧
      entryCount id (processList self deliver st jobs).store =
        entryCount id st.store := by
  induction jobs with
  | nil => intro st id h; exact ⟨rfl, rfl, rfl⟩
  | cons j rest ih =>
    intro st id h
    rw [processList_cons]
    have hadd :
        (if is_job_seen st.store (jobId self j) = true then 0
         else if ((jobId self j == id) && credsOk self) = true then 1 else 0) = 0 ∧
        (if is_job_seen st.store (jobId self j) = true then (0 : Nat)
         else if (jobId self j == id) = true then 1 else 0) = 0 := by
      by_cases hj : is_job_seen st.store (jobId self j) = true
      · simp [hj]
      · have hne : (jobId self j == id) = false := by
          by_contra hx
          have hbt : (jobId self j == id) = true := by
            cases hb : (jobId self j == id)
            · exact absurd hb hx
            · rfl
          have heq : jobId self j = id := by simpa using hbt
          rw [heq] at hj
          exact hj h
        simp [hj, hne]
    obtain ⟨ha1, ha2⟩ := hadd
    obtain ⟨h1, h2, h3⟩ := ih (processOne self deliver st j) id
      (seen_processOne self deliver st j id h)
    refine ⟨?_, ?_, ?_⟩
    · rw [h1, notifyCount_processOne, ha1]
      omega
    · rw [h2, insertCount_processOne, ha2]
      omega
    · rw [h3, entryCount_processOne, ha2]
      omega

theorem notifyCount_processList_mono (self : BotConfig) (deliver : JobRec → Bool)
    (jobs : List JobRec) : ∀ st : PState, ∀ id : String,
    notifyCount self id st.events ≤
      notifyCount self id (processList self deliver st jobs).events := by
  induction jobs with
  | nil => intro st id; exact Nat.le_refl _
  | cons j rest ih =>
    intro st id
    rw [processList_cons]
    refine Nat.le_trans ?_ (ih (processOne self deliver st j) id)
    rw [notifyCount_processOne]
    exact Nat.le_add_right _ _

theorem notifyCount_processList_le (self : BotConfig) (deliver : JobRec → Bool)
    (jobs : List JobRec) : ∀ st : PState, ∀ id : String,
    is_job_seen st.store id = false →
    notifyCount self id (processList self deliver st jobs).events ≤
      notifyCount self id st.events + 1 := by
  induction jobs with
  | nil => intro st id h; exact Nat.le_succ _
  | cons j rest ih =>
    intro st id h
    rw [processList_cons]
    by_cases hid : (jobId self j == id) = true
    · have heq : jobId self j = id := by simpa using hid
      have hj : is_job_seen st.store (jobId self j) = false := by rw [heq]; exact h
      have hseen : is_job_seen (processOne self deliver st j).store id = true := by
        rw [processOne_store, is_job_seen_mark, hid]
        simp
      have hrest := (counts_processList_of_seen self deliver rest _ id hseen).1
      rw [hrest, notifyCount_processOne, hj]
      by_cases hc : credsOk self = true <;> simp [hc, hid]
    · have hj2 : is_job_seen (processOne self deliver st j).store id = false :=
        unseen_processOne self deliver st j id h (by simpa using hid)
      have hrec := ih (processOne self deliver st j) id hj2
      rw [notifyCount_processOne] at hrec
      have hadd :
          (if is_job_seen st.store (jobId self j) = true then 0
           else if ((jobId self j == id) && credsOk self) = true then 1 else 0) = 0 := by
        by_cases hjj : is_job_seen st.store (jobId self j) = true <;> simp [hjj, hid]
      rw [hadd] at hrec
      simpa using hrec

theorem notifyCount_processList_ge (self : BotConfig) (deliver : JobRec → Bool)
    (jobs : List JobRec) : ∀ st : PState, ∀ job : JobRec, ∀ id : String,
    job ∈ jobs → jobId self job = id →
    is_job_seen st.store id = false → credsOk self = true →
    notifyCount self id st.events + 1 ≤
      notifyCount self id (processList self deliver st jobs).events := by
  induction jobs with
  | nil => intro st job id hmem; simp at hmem
  | cons j rest ih =>
    intro st job id hmem hjid hseen hcreds
    rw [processList_cons]
    by_cases hid : (jobId self j == id) = true
    · have heq : jobId self j = id := by simpa using hid
      have hj : is_job_seen st.store (jobId self j) = false := by rw [heq]; exact hseen
      have hstep : notifyCount self id (processOne self deliver st j).events =
          notifyCount self id st.events + 1 := by
        rw [notifyCount_processOne, hj]
        simp [hid, hcreds]
      have hmono := notifyCount_processList_mono self deliver rest
        (processOne self deliver st j) id
      rw [hstep] at hmono
      exact hmono
    · have hmem2 : job ∈ rest := by
        rcases List.mem_cons.mp hmem with rfl | hm
        · rw [hjid] at hid
          simp at hid
        · exact hm
      have hseen2 : is_job_seen (processOne self deliver st j).store id = false :=
        unseen_processOne self deliver st j id hseen (by simpa using hid)
      have hrec := ih (processOne self deliver st j) job id hmem2 hjid hseen2 hcreds
      have hstep : notifyCount self id st.events ≤
          notifyCount self id (processOne self deliver st j).events := by
        rw [notifyCount_processOne]
        exact Nat.le_add_right _ _
      omega

theorem seen_of_notifyCount_increase (self : BotConfig) (deliver : JobRec → Bool)
    (jobs : List JobRec) : ∀ st : PState, ∀ id : String,
    notifyCount self id st.events <
      notifyCount self id (processList self deliver st jobs).events →
    is_job_seen (processList self deliver st jobs).store id = true := by
  induction jobs with
  | nil => intro st id h; exact absurd h (Nat.lt_irrefl _)
  | cons j rest ih =>
    intro st id h
    rw [processList_cons] at h ⊢
    by_cases hj : is_job_seen st.store (jobId self j) = true
    · apply ih
      have hstep : notifyCount self id (processOne self deliver st j).events =
          notifyCount self id st.events := by
        rw [notifyCount_processOne, hj]
        simp
      rw [hstep]
      exact h
    · by_cases hid : (jobId self j == id) = true
      · have hseen : is_job_seen (processOne self deliver st j).store id = true := by
          rw [processOne_store, is_job_seen_mark, hid]
          simp
        exact seen_processList self deliver rest _ id hseen
      · apply ih
        have hstep : notifyCount self id (processOne self deliver st j).events =
            notifyCount self id st.events := by
          rw [notifyCount_processOne]
          simp [hj, hid]
        rw [hstep]
        exact h

theorem processList_events_extend (self : BotConfig) (deliver : JobRec → Bool)
    (jobs : List JobRec) : ∀ st : PState, ∃ tail : List Event,
    (processList self deliver st jobs).events = st.events ++ tail := by
  induction jobs with
  | nil => intro st; exact ⟨[], by simp [processList_nil]⟩
  | cons j rest ih =>
    intro st
    obtain ⟨t2, h2⟩ := ih (processOne self deliver st j)
    rw [processList_cons, h2, processOne_events]
    exact ⟨_, (List.append_assoc _ _ _)⟩

theorem firstIdEvent_append_of_none (self : BotConfig) (id : String)
    (xs ys : List Event) (h : firstIdEvent self id xs = none) :
    firstIdEvent self id (xs ++ ys) = firstIdEvent self id ys := by
  induction xs with
  | nil => rfl
  | cons e t ih =>
    cases e with
    | notify j d =>
      by_cases hb : (jobId self j == id) = true
      · simp [firstIdEvent, hb] at h
      · simp [firstIdEvent, hb] at h ⊢
        exact ih h
    | insert i =>
      by_cases hb : (i == id) = true
      · simp [firstIdEvent, hb] at h
      · simp [firstIdEvent, hb] at h ⊢
        exact ih h

theorem firstIdEvent_append_of_some (self : BotConfig) (id : String)
    (xs ys : List Event) (b : Bool) (h : firstIdEvent self id xs = some b) :
    firstIdEvent self id (xs ++ ys) = some b := by
  induction xs with
  | nil => simp [firstIdEvent] at h
  | cons e t ih =>
    cases e with
    | notify j d =>
      by_cases hb : (jobId self j == id) = true
      · simp [firstIdEvent, hb] at h ⊢
        exact h
      · simp [firstIdEvent, hb] at h ⊢
        exact ih h
    | insert i =>
      by_cases hb : (i == id) = true
      · simp [firstIdEvent, hb] at h ⊢
        exact h
      · simp [firstIdEvent, hb] at h ⊢
        exact ih h

theorem firstIdEvent_processList (self : BotConfig) (deliver : JobRec → Bool)
    (jobs : List JobRec) : ∀ st : PState, ∀ job : JobRec, ∀ id : String,
    job ∈ jobs → jobId self job = id → credsOk self = true →
    is_job_seen st.store id = false →
    firstIdEvent self id st.events = none →
    firstIdEvent self id (processList self deliver st jobs).events = some true := by
  induction jobs with
  | nil => intro st job id hmem; simp at hmem
  | cons j rest ih =>
    intro st job id hmem hjid hcreds hseen hnone
    rw [processList_cons]
    by_cases hid : (jobId self j == id) = true
    · have heq : jobId self j = id := by simpa using hid
      have hj : is_job_seen st.store (jobId self j) = false := by rw [heq]; exact hseen
      have hev : firstIdEvent self id (processOne self deliver st j).events = some true := by
        rw [processOne_events, hj]
        rw [firstIdEvent_append_of_none self id _ _ hnone]
        simp [hcreds, firstIdEvent, hid]
      obtain ⟨tail, htail⟩ :=
        processList_events_extend self deliver rest (processOne self deliver st j)
      rw [htail]
      exact firstIdEvent_append_of_some self id _ _ _ hev
    · have hmem2 : job ∈ rest := by
        rcases List.mem_cons.mp hmem with rfl | hm
        · rw [hjid] at hid
          simp at hid
        · exact hm
      have hseen2 : is_job_seen (processOne self deliver st j).store id = false :=
        unseen_processOne self deliver st j id hseen (by simpa using hid)
      have hnone2 : firstIdEvent self id (processOne self deliver st j).events = none := by
        rw [processOne_events]
        rw [firstIdEvent_append_of_none self id _ _ hnone]
        have hid2 : (jobId self j == id) = false := by simpa using hid
        by_cases hj : is_job_seen st.store (jobId self j) = true
        · simp [hj, firstIdEvent]
        · by_cases hc : credsOk self = true <;>
            simp [hj, hc, firstIdEvent, hid2]
      exact ih _ job id hmem2 hjid hcreds hseen2 hnone2

theorem store_processList_deliver_indep (self : BotConfig)
    (d₁ d₂ : JobRec → Bool) (jobs : List JobRec) : ∀ st₁ st₂ : PState,
    st₁.store = st₂.store →
    (processList self d₁ st₁ jobs).store = (processList self d₂ st₂ jobs).store := by
  induction jobs with
  | nil => intro st₁ st₂ h; exact h
  | cons j rest ih =>
    intro st₁ st₂ h
    rw [processList_cons, processList_cons]
    apply ih
    rw [processOne_store, processOne_store, h]

/-! ## Helper lemmas: sorting, aggregation, cycles -/

theorem mem_insertByDays (a j : JobRec) (l : List JobRec) :
    a ∈ insertByDays j l ↔ a = j ∨ a ∈ l := by
  induction l with
  | nil => simp [insertByDays]
  | cons x xs ih =>
    by_cases h : j.days_ago < x.days_ago
    · simp [insertByDays, h, List.mem_cons]
    · simp only [insertByDays, h, if_false, List.mem_cons, ih]
      tauto

theorem mem_sortByDays (a : JobRec) (l : List JobRec) :
    a ∈ sortByDays l ↔ a ∈ l := by
  induction l with
  | nil => simp [sortByDays]
  | cons x xs ih => simp [sortByDays, mem_insertByDays, ih, List.mem_cons]

/-- The list a successful adapter outcome contributes. -/
def okJobs : AdapterOutcome → List JobRec
  | .ok jobs => jobs
  | .raised => []

theorem scrape_all_portals_foldl (outcomes : List AdapterOutcome) :
    ∀ acc : List JobRec,
    outcomes.foldl
        (fun all_jobs o =>
          match o with
          | .ok jobs => all_jobs ++ jobs
          | .raised => all_jobs) acc =
      acc ++ (outcomes.map okJobs).flatten := by
  induction outcomes with
  | nil => intro acc; simp
  | cons o rest ih =>
    intro acc
    cases o with
    | ok jobs => simp [List.foldl_cons, ih, okJobs, List.append_assoc]
    | raised => simp [List.foldl_cons, ih, okJobs]

theorem scrape_all_portals_eq (outcomes : List AdapterOutcome) :
    scrape_all_portals outcomes = (outcomes.map okJobs).flatten := by
  unfold scrape_all_portals
  rw [scrape_all_portals_foldl]
  rfl

theorem runCycles_snd_cons (self : BotConfig) (deliver : JobRec → Bool)
    (store : List SeenEntry) (outs : List AdapterOutcome)
    (rest : List (List AdapterOutcome)) :
    (runCycles self deliver store (outs :: rest)).2 =
      (process_jobs self deliver store outs).2.events ++
        (runCycles self deliver (process_jobs self deliver store outs).2.store rest).2 :=
  rfl

theorem process_jobs_snd (self : BotConfig) (deliver : JobRec → Bool)
    (store : List SeenEntry) (outs : List AdapterOutcome) :
    (process_jobs self deliver store outs).2 =
      processList self deliver { store := store, events := [], new_count := 0 }
        (sortByDays (scrape_all_portals outs)) :=
  rfl

theorem notifyCount_append (self : BotConfig) (id : String) (a b : List Event) :
    notifyCount self id (a ++ b) = notifyCount self id a + notifyCount self id b :=
  List.countP_append _ _ _

theorem notifyCount_runCycles_of_seen (self : BotConfig) (deliver : JobRec → Bool)
    (cycles : List (List AdapterOutcome)) : ∀ store : List SeenEntry, ∀ id : String,
    is_job_seen store id = true →
    notifyCount self id (runCycles self deliver store cycles).2 = 0 := by
  induction cycles with
  | nil => intro store id h; rfl
  | cons outs rest ih =>
    intro store id h
    rw [runCycles_snd_cons, notifyCount_append]
    have h1 : notifyCount self id (process_jobs self deliver store outs).2.events = 0 := by
      rw [process_jobs_snd]
      have := (counts_processList_of_seen self deliver
        (sortByDays (scrape_all_portals outs))
        { store := store, events := [], new_count := 0 } id h).1
      simpa [notifyCount] using this
    have h2 : is_job_seen (process_jobs self deliver store outs).2.store id = true := by
      rw [process_jobs_snd]
      exact seen_processList self deliver _ _ id h
    rw [h1, ih _ _ h2]

theorem notifyCount_runCycles_le_one (self : BotConfig) (deliver : JobRec → Bool)
    (cycles : List (List AdapterOutcome)) : ∀ store : List SeenEntry, ∀ id : String,
    notifyCount self id (runCycles self deliver store cycles).2 ≤ 1 := by
  induction cycles with
  | nil => intro store id; exact Nat.zero_le _
  | cons outs rest ih =>
    intro store id
    rw [runCycles_snd_cons, notifyCount_append]
    by_cases hseen : is_job_seen store id = true
    · have h1 : notifyCount self id (process_jobs self deliver store outs).2.events = 0 := by
        rw [process_jobs_snd]
        have := (counts_processList_of_seen self deliver
          (sortByDays (scrape_all_portals outs))
          { store := store, events := [], new_count := 0 } id hseen).1
        simpa [notifyCount] using this
      have h2 : is_job_seen (process_jobs self deliver store outs).2.store id = true := by
        rw [process_jobs_snd]
        exact seen_processList self deliver _ _ id hseen
      rw [h1, notifyCount_runCycles_of_seen self deliver rest _ id h2]
      omega
    · have hb : notifyCount self id (process_jobs self deliver store outs).2.events ≤ 1 := by
        rw [process_jobs_snd]
        have := notifyCount_processList_le self deliver
          (sortByDays (scrape_all_portals outs))
          { store := store, events := [], new_count := 0 } id (by simpa using hseen)
        simpa [notifyCount] using this
      rcases Nat.lt_or_ge (notifyCount self id (process_jobs self deliver store outs).2.events) 1
        with h0 | h1
      · have h0z := Nat.lt_one_iff.mp h0
        have := ih (process_jobs self deliver store outs).2.store id
        omega
      · have hinc : notifyCount self id
            ({ store := store, events := [], new_count := 0 } : PState).events <
            notifyCount self id (process_jobs self deliver store outs).2.events := by
          have hz : notifyCount self id
              ({ store := store, events := [], new_count := 0 } : PState).events = 0 := rfl
          omega
        have hseenafter : is_job_seen (process_jobs self deliver store outs).2.store id = true := by
          rw [process_jobs_snd]
          exact seen_of_notifyCount_increase self deliver _ _ id
            (by rw [process_jobs_snd] at hinc; exact hinc)
        have hrest := notifyCount_runCycles_of_seen self deliver rest _ id hseenafter
        omega

/-! ## Helper lemmas: digest shape and skill matching -/

theorem md5Digest_length (msg : List Nat) : (md5Digest msg).length = 16 := by
  simp [md5Digest, wordLE]

theorem md5Hex_length (msg : List Nat) : (md5Hex msg).length = 32 := by
  show (((md5Digest msg).map hexByte).flatten).length = 32
  rw [List.length_flatten, List.map_map]
  have h2 : (List.length ∘ hexByte) = fun _ : Nat => 2 := by
    funext b
    rfl
  rw [h2]
  have h3 := md5Digest_length msg
  simp [List.map_const', List.sum_replicate, h3]

theorem matches_skills_of_blank (self : BotConfig) (T e : String)
    (hmem : e ∈ self.skills) (hblank : pyStrip e = "") :
    matches_skills self T = true := by
  simp only [matches_skills, List.any_eq_true]
  refine ⟨e, hmem, ?_⟩
  rw [hblank]
  exact containsSub_empty_needle _

theorem matches_skills_iff (self : BotConfig) (T : String) :
    matches_skills self T = true ↔
      ∃ skill ∈ self.skills, (pyStrip skill).data <:+: (pyLower T).data := by
  simp only [matches_skills, List.any_eq_true, pyInStr, containsSub_correct]

theorem remotiveItemToJob_none_of_stale (self : BotConfig) (item : RemotiveItem)
    (h : is_recent_job self (remotiveDays item) = false) :
    remotiveItemToJob self item = none := by
  simp [remotiveItemToJob, h]

theorem is_recent_job_succ_max (self : BotConfig) :
    is_recent_job self (self.max_days_old + 1) = false := by
  simp [is_recent_job]

theorem map_eq_self_of_mem {α : Type} (f : α → α) (l : List α)
    (h : ∀ c ∈ l, f c = c) : l.map f = l := by
  induction l with
  | nil => rfl
  | cons a t ih =>
    rw [List.map_cons, h a (by simp), ih (fun c hc => h c (by simp [hc]))]

theorem mem_toLower_fixed (l : List Char) (h : l.map Char.toLower = l) :
    ∀ c ∈ l, Char.toLower c = c := by
  induction l with
  | nil => intro c hc; simp at hc
  | cons a t ih =>
    intro c hc
    rw [List.map_cons] at h
    have h1 : Char.toLower a = a := (List.cons.injEq _ _ _ _ ▸ h).1
    have h2 : t.map Char.toLower = t := (List.cons.injEq _ _ _ _ ▸ h).2
    rcases List.mem_cons.mp hc with rfl | hct
    · exact h1
    · exact ih h2 c hct

theorem any_congr_mem {α : Type} (l : List α) (f g : α → Bool)
    (h : ∀ x ∈ l, f x = g x) : l.any f = l.any g := by
  induction l with
  | nil => rfl
  | cons a t ih =>
    rw [List.any_cons, List.any_cons, h a (by simp),
      ih (fun x hx => h x (by simp [hx]))]

theorem pyStrip_mem (s : String) : ∀ c ∈ (pyStrip s).data, c ∈ s.data := by
  intro c hc
  have hc1 : c ∈ ((s.data.dropWhile isPySpace).reverse.dropWhile isPySpace).reverse := hc
  rw [List.mem_reverse] at hc1
  have hc2 := List.dropWhile_subset isPySpace hc1
  rw [List.mem_reverse] at hc2
  exact List.dropWhile_subset isPySpace hc2

theorem pyLower_pyStrip_of_lower (s : String) (h : pyLower s = s) :
    pyLower (pyStrip s) = pyStrip s := by
  have hdata : s.data.map Char.toLower = s.data := congrArg String.data h
  have hall := mem_toLower_fixed s.data hdata
  show String.mk ((pyStrip s).data.map Char.toLower) = pyStrip s
  rw [map_eq_self_of_mem Char.toLower (pyStrip s).data
    (fun c hc => hall c (pyStrip_mem s c hc))]

/-! ## Concrete fixtures -/

/-- A configuration with Telegram credentials present. -/
def botT : BotConfig :=
  { telegram_bot_token := some "token", telegram_chat_id := some "chat",
    skills := ["java", "sql"], check_interval := 300, max_days_old := 10,
    dash_user := "admin", dash_pass := "password" }

/-- A configuration whose skill list holds an uppercase entry (not producible
by `__init__`, which lowercases, but a legal input of `matches_skills`). -/
def botJAVA : BotConfig :=
  { telegram_bot_token := none, telegram_chat_id := none,
    skills := ["JAVA"], check_interval := 300, max_days_old := 10,
    dash_user := "admin", dash_pass := "password" }

/-- A configuration whose skill list holds a whitespace-only entry. -/
def botBlank : BotConfig :=
  { telegram_bot_token := none, telegram_chat_id := none,
    skills := ["java", " "], check_interval := 300, max_days_old := 10,
    dash_user := "admin", dash_pass := "password" }

/-- A configuration with `MAX_DAYS_OLD = 2`. -/
def botMax2 : BotConfig :=
  { telegram_bot_token := none, telegram_chat_id := none,
    skills := ["java"], check_interval := 300, max_days_old := 2,
    dash_user := "admin", dash_pass := "password" }

/-- A delivery oracle on which every Telegram POST succeeds. -/
def deliverT : JobRec → Bool := fun _ => true

/-- A delivery oracle on which every Telegram POST fails. -/
def deliverF : JobRec → Bool := fun _ => false

/-- A fresh job record. -/
def jobDev : JobRec :=
  { title := "Java Dev", company := "Acme", link := "http://x/1",
    portal := "Remotive", posted_date := "2024-01-01", days_ago := 0 }

/-- Record whose identity collides with `jobA` by concatenation. -/
def jobAB : JobRec :=
  { title := "AB", company := "C", link := "L", portal := "Remotive",
    posted_date := "d1", days_ago := 0 }

/-- Record whose identity collides with `jobAB` by concatenation. -/
def jobA : JobRec :=
  { title := "A", company := "BC", link := "L", portal := "Indeed",
    posted_date := "d2", days_ago := 1 }

/-- A Glassdoor card that matches the `botMax2` skills. -/
def gcard : GlassdoorCard :=
  { title := some "Java Developer", company := some "Acme", href := some "/job1" }

/-- A Remotive item whose computed age is `botT.max_days_old + 1`. -/
def staleItem : RemotiveItem :=
  { title := some "java dev", company_name := some "X", url := some "u",
    description := some "desc", tags := some [], publication_date := some "2024",
    parsed_date := some 11 }

/-- MD5 test vector of RFC 1321, checking the hash embedding itself. -/
theorem md5Hex_rfc1321_abc :
    md5Hex (utf8Bytes "abc") = "900150983cd24fb0d6963f7d28e17f72" := by decide

/-! ## Claim theorems -/

/-- C3: inserting an entry with the same identity twice leaves the store with
exactly one entry for that identity; the duplicate `mark_job_seen` is a no-op
(the `sqlite3.IntegrityError` is caught, so no error is raised — the function
is total) and the store is unchanged by the second call. -/
theorem mark_job_seen_idempotent (store : List SeenEntry)
    (id t c u p pd : String) (d : Int) (t2 c2 u2 p2 pd2 : String) (d2 : Int)
    (h : entryCount id store = 0) :
    mark_job_seen (mark_job_seen store id t c u p pd d) id t2 c2 u2 p2 pd2 d2 =
      mark_job_seen store id t c u p pd d ∧
    entryCount id (mark_job_seen store id t c u p pd d) = 1 := by
  have hseen : is_job_seen store id = false := (seen_iff_entryCount store id).mpr h
  have h1 : mark_job_seen store id t c u p pd d = store ++ [⟨id, t, c, u, p, pd, d⟩] :=
    mark_job_seen_of_unseen store id t c u p pd d hseen
  constructor
  · apply mark_job_seen_of_seen
    rw [h1, is_job_seen_append, hseen]
    simp
  · have h0 : List.countP (fun e => e.job_id == id) store = 0 := h
    rw [h1]
    simp [entryCount, List.countP_append, List.countP_cons, h0]

/-- Witness for C3 at a concrete store and identity. -/
theorem mark_job_seen_idempotent_witness :
    entryCount "a" ([] : List SeenEntry) = 0 ∧
    (mark_job_seen (mark_job_seen [] "a" "t" "c" "u" "p" "pd" 1) "a" "t2" "c2" "u2" "p2" "pd2" 2 =
       mark_job_seen [] "a" "t" "c" "u" "p" "pd" 1 ∧
     entryCount "a" (mark_job_seen [] "a" "t" "c" "u" "p" "pd" 1) = 1) :=
  ⟨by decide,
   mark_job_seen_idempotent [] "a" "t" "c" "u" "p" "pd" 1 "t2" "c2" "u2" "p2" "pd2" 2
     (by decide)⟩

/-- C5 counterexample: on the skill list `["JAVA"]` and text `"JAVA"`, the
claim's predicate (lowercased text contains a lowercased trimmed entry) is
true, but `matches_skills` returns false — the code never lowercases the
skill entry, only the text. -/
theorem matches_skills_lowercase_counterexample :
    matches_skills botJAVA "JAVA" = false ∧
    matchesSkillsSpecC5 botJAVA.skills "JAVA" = true := by
  constructor <;> decide

/-- C5 (amended): `matches_skills(T)` is true iff the lowercased text
contains at least one trimmed — but not lowercased — entry of the configured
skill list as a substring (pure substring containment, no word boundaries:
the skill "java" matches text containing "JavaScript"); for skill lists that
are already lowercase, as `__init__` produces, this coincides with the
original claim. -/
theorem matches_skills_characterization :
    (∀ (self : BotConfig) (T : String),
      matches_skills self T = true ↔
        ∃ skill ∈ self.skills, (pyStrip skill).data <:+: (pyLower T).data) ∧
    (∀ (self : BotConfig) (T : String),
      (∀ skill ∈ self.skills, pyLower skill = skill) →
      (matches_skills self T = matchesSkillsSpecC5 self.skills T)) ∧
    matches_skills botT "I write JavaScript daily" = true := by
  refine ⟨matches_skills_iff, ?_, by decide⟩
  intro self T hlow
  simp only [matches_skills, matchesSkillsSpecC5]
  apply any_congr_mem
  intro skill hmem
  rw [pyLower_pyStrip_of_lower skill (hlow skill hmem)]

/-- Witness for the lowercase-list conjunct of the amended C5. -/
theorem matches_skills_characterization_witness :
    (∀ skill ∈ botT.skills, pyLower skill = skill) ∧
    matches_skills botT "docker and sql" = matchesSkillsSpecC5 botT.skills "docker and sql" :=
  ⟨by decide, matches_skills_characterization.2.1 botT "docker and sql" (by decide)⟩

/-- C6: `parse_days_ago` follows the stated precedence — it agrees with the
specification-transcribed classifier on every input — and maps the literal
cases "today" to 0, "Yesterday" to 1, "3 days ago" to 3, "2 weeks ago" to 14,
"1 month ago" to 30 and "" to 999. -/
theorem parse_days_ago_follows_spec :
    (∀ (self : BotConfig) (s : String), parse_days_ago self s = parseDaysAgoSpec s) ∧
    parse_days_ago botT "today" = 0 ∧
    parse_days_ago botT "Yesterday" = 1 ∧
    parse_days_ago botT "3 days ago" = 3 ∧
    parse_days_ago botT "2 weeks ago" = 14 ∧
    parse_days_ago botT "1 month ago" = 30 ∧
    parse_days_ago botT "" = 999 :=
  ⟨fun _ _ => rfl, by decide, by decide, by decide, by decide, by decide, by decide⟩

/-- C7: a non-success response or an exception inside an adapter yields the
empty list from that adapter; the orchestrator's accumulator is the
concatenation of the per-adapter results, and a raised adapter contributes
nothing while every other adapter is still processed. -/
theorem adapter_failures_isolated :
    (∀ outcomes : List AdapterOutcome,
      scrape_all_portals outcomes = (outcomes.map okJobs).flatten) ∧
    (∀ pre post : List AdapterOutcome,
      scrape_all_portals (pre ++ AdapterOutcome.raised :: post) =
        scrape_all_portals (pre ++ post)) ∧
    (∀ self : BotConfig, scrape_remotive self .exception = []) ∧
    (∀ (self : BotConfig) (status : Nat) (items : List RemotiveItem),
      status ≠ 200 → scrape_remotive self (.response status items) = []) ∧
    (∀ self : BotConfig, scrape_glassdoor self .exception = []) ∧
    (∀ (self : BotConfig) (status : Nat) (cards : List GlassdoorCard),
      status ≠ 200 → scrape_glassdoor self (.response status cards) = []) := by
  refine ⟨scrape_all_portals_eq, ?_, fun _ => rfl, ?_, fun _ => rfl, ?_⟩
  · intro pre post
    rw [scrape_all_portals_eq, scrape_all_portals_eq]
    simp [okJobs]
  · intro self status items h
    simp [scrape_remotive, h]
  · intro self status cards h
    simp [scrape_glassdoor, h]

/-- Witness for C7 at status 404. -/
theorem adapter_failures_isolated_witness :
    (404 : Nat) ≠ 200 ∧
    scrape_remotive botT (.response 404 []) = [] ∧
    scrape_glassdoor botT (.response 404 []) = [] :=
  ⟨by decide, adapter_failures_isolated.2.2.2.1 botT 404 [] (by decide),
   adapter_failures_isolated.2.2.2.2.2 botT 404 [] (by decide)⟩

/-- C8: `generate_job_id` is a pure function of the `(title, company, url)`
triple — it reads nothing from the bot state, so two calls with the same
triple under any two configurations agree — and its result is always a
32-character hash string. -/
theorem generate_job_id_pure (self₁ self₂ : BotConfig) (title company url : String) :
    generate_job_id self₁ title company url = generate_job_id self₂ title company url ∧
    (generate_job_id self₁ title company url).length = 32 :=
  ⟨rfl, md5Hex_length _⟩

/-- C9: any empty or whitespace-only entry of the skill list — as a trailing
or doubled comma in `JOB_SKILLS` produces via `.lower().split(',')` — makes
`matches_skills` return true on every text, so every job passes the skill
filter. -/
theorem blank_skill_matches_everything (self : BotConfig) (T e : String)
    (hmem : e ∈ self.skills) (hblank : pyStrip e = "") :
    matches_skills self T = true ∧
    matches_skills { self with skills := skillsFromEnv (some "java,") } T = true := by
  constructor
  · exact matches_skills_of_blank self T e hmem hblank
  · apply matches_skills_of_blank _ T ""
    · show "" ∈ skillsFromEnv (some "java,")
      decide
    · rfl

/-- Witness for C9 on a whitespace-only skill entry. -/
theorem blank_skill_matches_everything_witness :
    " " ∈ botBlank.skills ∧ pyStrip " " = "" ∧
    (matches_skills botBlank "zzz completely unrelated" = true ∧
     matches_skills { botBlank with skills := skillsFromEnv (some "java,") }
       "zzz completely unrelated" = true) :=
  ⟨by decide, by decide,
   blank_skill_matches_everything botBlank "zzz completely unrelated" " "
     (by decide) (by decide)⟩

/-- C4 counterexample: with `MAX_DAYS_OLD = 2`, the Glassdoor adapter emits a
record whose `days_ago` (the hardcoded 3) equals `max_days_old + 1` — the
adapter performs no recency check at all, so the stale item reaches the skill
matcher and is emitted toward the store. -/
theorem stale_item_emitted_by_glassdoor :
    scrape_glassdoor botMax2 (.response 200 [gcard]) =
      [{ title := "Java Developer", company := "Acme",
         link := "https://www.glassdoor.com/job1", portal := "Glassdoor",
         posted_date := "Recently", days_ago := 3 }] ∧
    (3 : Int) = botMax2.max_days_old + 1 ∧
    is_recent_job botMax2 3 = false :=
  ⟨by decide, by decide, by decide⟩

/-- C4 (amended): adapters that compute `days_ago` from a posted-date signal
(modelled by Remotive) discard an item whose `days_ago` equals
`max_days_old + 1` before the skill matcher is consulted — the outcome is
`none` under every skill list — and the item never reaches the emitted
sequence; the adapters with hardcoded `days_ago` approximations (LinkedIn,
Glassdoor, AngelList, Monster, Dice, FlexJobs, Jobserve, CareerBuilder,
SimplyHired, ZipRecruiter) apply no age filter. -/
theorem remotive_discards_stale_before_matcher (self : BotConfig)
    (item : RemotiveItem) (skills2 : List String)
    (items1 items2 : List RemotiveItem)
    (h : remotiveDays item = self.max_days_old + 1) :
    remotiveItemToJob self item = none ∧
    remotiveItemToJob { self with skills := skills2 } item = none ∧
    scrape_remotive self (.response 200 (items1 ++ item :: items2)) =
      scrape_remotive self (.response 200 (items1 ++ items2)) := by
  have h1 : remotiveItemToJob self item = none := by
    apply remotiveItemToJob_none_of_stale
    rw [h]
    exact is_recent_job_succ_max self
  have h2 : remotiveItemToJob { self with skills := skills2 } item = none := by
    apply remotiveItemToJob_none_of_stale
    rw [h]
    exact is_recent_job_succ_max { self with skills := skills2 }
  refine ⟨h1, h2, ?_⟩
  simp [scrape_remotive, List.filterMap_append, List.filterMap_cons, h1]

/-- Witness for the amended C4 at a Remotive item aged `max_days_old + 1`. -/
theorem remotive_discards_stale_witness :
    remotiveDays staleItem = botT.max_days_old + 1 ∧
    (remotiveItemToJob botT staleItem = none ∧
     remotiveItemToJob { botT with skills := ["anything"] } staleItem = none ∧
     scrape_remotive botT (.response 200 ([] ++ staleItem :: [])) =
       scrape_remotive botT (.response 200 ([] ++ []))) :=
  ⟨by decide,
   remotive_discards_stale_before_matcher botT staleItem ["anything"] [] []
     (by decide)⟩

/-- C10: the triples ("AB", "C", "L") and ("A", "BC", "L") are distinct but
concatenate to the same string, so `generate_job_id` maps them to the same
identity with no MD5 collision involved; in a cycle carrying both records the
pipeline inserts only one store row and tallies only one new job — the second
record is treated as a duplicate. -/
theorem generate_job_id_concatenation_collision :
    generate_job_id botT "AB" "C" "L" = generate_job_id botT "A" "BC" "L" ∧
    ("AB" ++ "C" ++ "L" : String) = "A" ++ "BC" ++ "L" ∧
    (("AB", "C", "L") : String × String × String) ≠ ("A", "BC", "L") ∧
    (process_jobs botT deliverT [] [AdapterOutcome.ok [jobAB, jobA]]).2.store.length = 1 ∧
    (process_jobs botT deliverT [] [AdapterOutcome.ok [jobAB, jobA]]).2.new_count = 1 :=
  ⟨rfl, rfl, by decide, by decide, by decide⟩

/-- C1 counterexample: for a fresh record processed with Telegram credentials
configured, the cycle's event trace is `[notify, insert]` — the record is
handed to the notification sink first and inserted into the store second, so
the claim's order (insert first, then notify) is false on this input. -/
theorem notify_precedes_insert_counterexample :
    (process_jobs botT deliverT [] [AdapterOutcome.ok [jobDev]]).2.events =
      [Event.notify jobDev true, Event.insert (jobId botT jobDev)] ∧
    firstIdEvent botT (jobId botT jobDev)
      (process_jobs botT deliverT [] [AdapterOutcome.ok [jobDev]]).2.events =
      some true ∧
    (some true : Option Bool) ≠ some false :=
  ⟨by decide, by decide, by decide⟩

/-- C1 (amended): for every record in the cycle whose identity is not yet in
the store, when Telegram credentials are configured the orchestrator first
hands a record of that identity to the notification sink and then inserts the
identity into the store (the trace's first event for the identity is the sink
hand-off), the sink is invoked exactly once for that identity, the identity is
marked seen, and the resulting store does not depend on whether the
notification deliveries succeed — a job is marked seen even if delivery
fails. -/
theorem new_record_notified_once_then_inserted (self : BotConfig)
    (deliver deliver2 : JobRec → Bool) (store₀ : List SeenEntry)
    (outcomes : List AdapterOutcome) (job : JobRec)
    (hmem : job ∈ scrape_all_portals outcomes)
    (hcreds : credsOk self = true)
    (hnew : is_job_seen store₀ (jobId self job) = false) :
    notifyCount self (jobId self job)
        (process_jobs self deliver store₀ outcomes).2.events = 1 ∧
    firstIdEvent self (jobId self job)
        (process_jobs self deliver store₀ outcomes).2.events = some true ∧
    is_job_seen (process_jobs self deliver store₀ outcomes).2.store
        (jobId self job) = true ∧
    (process_jobs self deliver2 store₀ outcomes).2.store =
      (process_jobs self deliver store₀ outcomes).2.store := by
  have hmem2 : job ∈ sortByDays (scrape_all_portals outcomes) :=
    (mem_sortByDays _ _).mpr hmem
  simp only [process_jobs_snd]
  refine ⟨?_, ?_, ?_, ?_⟩
  · have hle := notifyCount_processList_le self deliver
      (sortByDays (scrape_all_portals outcomes))
      { store := store₀, events := [], new_count := 0 } (jobId self job) hnew
    have hge := notifyCount_processList_ge self deliver
      (sortByDays (scrape_all_portals outcomes))
      { store := store₀, events := [], new_count := 0 } job (jobId self job)
      hmem2 rfl hnew hcreds
    have h0 : notifyCount self (jobId self job)
        ({ store := store₀, events := [], new_count := 0 } : PState).events = 0 := rfl
    omega
  · exact firstIdEvent_processList self deliver
      (sortByDays (scrape_all_portals outcomes))
      { store := store₀, events := [], new_count := 0 } job (jobId self job)
      hmem2 rfl hcreds hnew rfl
  · exact seen_processList_of_mem self deliver
      (sortByDays (scrape_all_portals outcomes))
      { store := store₀, events := [], new_count := 0 } job hmem2
  · exact store_processList_deliver_indep self deliver2 deliver
      (sortByDays (scrape_all_portals outcomes)) _ _ rfl

/-- Witness for the amended C1 on a one-record cycle over the empty store,
including a failing delivery oracle on the store-equality conjunct. -/
theorem new_record_notified_once_witness :
    jobDev ∈ scrape_all_portals [AdapterOutcome.ok [jobDev]] ∧
    credsOk botT = true ∧
    is_job_seen [] (jobId botT jobDev) = false ∧
    (notifyCount botT (jobId botT jobDev)
        (process_jobs botT deliverT [] [AdapterOutcome.ok [jobDev]]).2.events = 1 ∧
     firstIdEvent botT (jobId botT jobDev)
        (process_jobs botT deliverT [] [AdapterOutcome.ok [jobDev]]).2.events =
        some true ∧
     is_job_seen (process_jobs botT deliverT [] [AdapterOutcome.ok [jobDev]]).2.store
        (jobId botT jobDev) = true ∧
     (process_jobs botT deliverF [] [AdapterOutcome.ok [jobDev]]).2.store =
       (process_jobs botT deliverT [] [AdapterOutcome.ok [jobDev]]).2.store) :=
  ⟨by decide, by decide, rfl,
   new_record_notified_once_then_inserted botT deliverT deliverF []
     [AdapterOutcome.ok [jobDev]] jobDev (by decide) (by decide) rfl⟩

/-- C2: a record already processed in the previous cycle produces, in the
next cycle run over the carried-over store, zero sink hand-offs and zero
store insertions for its identity, and the number of store rows with that
identity does not change; over any sequence of cycles, each identity is
handed to the sink at most once. -/
theorem second_cycle_idempotent (self : BotConfig) (deliver : JobRec → Bool)
    (store₀ : List SeenEntry) (outs1 outs2 : List AdapterOutcome) (job : JobRec)
    (id2 : String) (store2 : List SeenEntry) (cycles : List (List AdapterOutcome))
    (hmem1 : job ∈ scrape_all_portals outs1)
    (hmem2 : job ∈ scrape_all_portals outs2) :
    notifyCount self (jobId self job)
        (process_jobs self deliver
          (process_jobs self deliver store₀ outs1).2.store outs2).2.events = 0 ∧
    insertCount (jobId self job)
        (process_jobs self deliver
          (process_jobs self deliver store₀ outs1).2.store outs2).2.events = 0 ∧
    entryCount (jobId self job)
        (process_jobs self deliver
          (process_jobs self deliver store₀ outs1).2.store outs2).2.store =
      entryCount (jobId self job) (process_jobs self deliver store₀ outs1).2.store ∧
    notifyCount self id2 (runCycles self deliver store2 cycles).2 ≤ 1 := by
  have hseen1 : is_job_seen (process_jobs self deliver store₀ outs1).2.store
      (jobId self job) = true := by
    rw [process_jobs_snd]
    exact seen_processList_of_mem self deliver _ _ job ((mem_sortByDays _ _).mpr hmem1)
  obtain ⟨hn, hi, he⟩ := counts_processList_of_seen self deliver
    (sortByDays (scrape_all_portals outs2))
    { store := (process_jobs self deliver store₀ outs1).2.store, events := [],
      new_count := 0 } (jobId self job) hseen1
  refine ⟨?_, ?_, ?_, notifyCount_runCycles_le_one self deliver cycles store2 id2⟩
  · rw [process_jobs_snd]
    exact hn
  · rw [process_jobs_snd]
    exact hi
  · rw [process_jobs_snd]
    exact he

/-- Witness for C2 on the same one-record cycle run twice. -/
theorem second_cycle_idempotent_witness :
    jobDev ∈ scrape_all_portals [AdapterOutcome.ok [jobDev]] ∧
    (notifyCount botT (jobId botT jobDev)
        (process_jobs botT deliverT
          (process_jobs botT deliverT [] [AdapterOutcome.ok [jobDev]]).2.store
          [AdapterOutcome.ok [jobDev]]).2.events = 0 ∧
     insertCount (jobId botT jobDev)
        (process_jobs botT deliverT
          (process_jobs botT deliverT [] [AdapterOutcome.ok [jobDev]]).2.store
          [AdapterOutcome.ok [jobDev]]).2.events = 0 ∧
     entryCount (jobId botT jobDev)
        (process_jobs botT deliverT
          (process_jobs botT deliverT [] [AdapterOutcome.ok [jobDev]]).2.store
          [AdapterOutcome.ok [jobDev]]).2.store =
       entryCount (jobId botT jobDev)
         (process_jobs botT deliverT [] [AdapterOutcome.ok [jobDev]]).2.store ∧
     notifyCount botT "x" (runCycles botT deliverT [] []).2 ≤ 1) :=
  ⟨by decide,
   second_cycle_idempotent botT deliverT [] [AdapterOutcome.ok [jobDev]]
     [AdapterOutcome.ok [jobDev]] jobDev "x" [] [] (by decide) (by decide)⟩
